import Mathlib

/-!
Formal model of the `signals-http-tracking` library.

The repository has two collaborating components:

* `GlobalHttpTracker` (projects/signals-http-tracking/src/lib/global-signals-http-tracking.ts):
  a pending set of string identifiers plus a last-error signal.
* the action lifecycle controller (`createBaseAction` / `createSignalAction` /
  `createSignalForkJoinAction`), present in two variants in the repository
  (src/unnamed/part_000 and src/unnamed/part_001).  The variants agree on the
  tracker protocol, the forkJoin constructor, the debounce pipeline and the
  status/error signal writes; part_000 wires the per-invocation handler record
  into the dispatch (its `run` defers dispatch with `setTimeout(..., 0)` and
  `executeObservable` captures the handler record mutated by the chainable
  builder), while part_001 additionally normalizes producer failures through
  `extractErrorMessage`.  The execution model below follows part_000's
  dispatch/handler structure and is parametric in the failure-normalization
  function `norm`: `norm := id` gives part_000's error branch (the raw error
  is passed through), `norm := extractErrorMessage` gives part_001's.

Stateful behaviour is modelled as an event trace: every signal write, tracker
call, producer subscription and callback invocation performed by
`executeObservable` becomes one trace event, in program order.  The
`queueMicrotask` that delivers the loading callbacks runs after the dispatch
turn and before the (asynchronous) producer settles, so the loading-callback
events are placed after the subscription event and before the settle events.
-/

/-- `AsyncStatus` (part_000 / part_001, line 6):
`'idle' | 'loading' | 'success' | 'error'`. -/
inductive AsyncStatus where
  | idle
  | loading
  | success
  | error
  deriving DecidableEq, Repr

/-- Terminal outcome of an asynchronous producer: rxjs delivers either a
`next` value or an `error` payload. -/
inductive Outcome (R E : Type) where
  | success (v : R)
  | failure (e : E)
  deriving DecidableEq, Repr

/-- State of `GlobalHttpTracker`
(global-signals-http-tracking.ts, lines 4-33): the `_pending` set signal and
the `_lastError` signal. -/
structure TrackerState where
  pending : Finset String := ∅
  lastError : Option String := none
  deriving DecidableEq

namespace TrackerState

/-- Initial tracker state: `new Set<string>()` and `null`. -/
def init : TrackerState := {}

/-- `begin(id)` (lines 12-16): copies the set and calls `s.add(id)`;
JS `Set.add` is idempotent, modelled by `Finset.insert`. -/
def begin (t : TrackerState) (id : String) : TrackerState :=
  { t with pending := insert id t.pending }

/-- `success(id)` (lines 18-22): copies the set and calls `s.delete(id)`. -/
def success (t : TrackerState) (id : String) : TrackerState :=
  { t with pending := t.pending.erase id }

/-- `error(id, msg)` (lines 24-29): deletes `id` and overwrites `_lastError`. -/
def error (t : TrackerState) (id : String) (msg : String) : TrackerState :=
  { pending := t.pending.erase id, lastError := some msg }

/-- `clearError()` (lines 31-33). -/
def clearError (t : TrackerState) : TrackerState :=
  { t with lastError := none }

/-- `pendingCount` (line 8): `this._pending().size`. -/
def pendingCount (t : TrackerState) : Nat := t.pending.card

/-- `isAnyLoading` (line 9): `this.pendingCount() > 0`. -/
def isAnyLoading (t : TrackerState) : Bool := t.pendingCount > 0

end TrackerState

/-- `ActionOptions` (part_000 lines 27-33).  The three controller-level
callbacks are modelled by their presence (the trace records their invocation
events); `track` and `debounceMs` keep their TS optionality. -/
structure ActionOptions where
  track : Option Bool := none
  debounceMs : Option Nat := none
  onLoading : Bool := false
  onSuccess : Bool := false
  onError : Bool := false
  deriving DecidableEq, Repr

/-- The guard `options.track !== false` (part_000 lines 75, 86, 95). -/
def tracked (o : ActionOptions) : Bool :=
  match o.track with
  | some false => false
  | _ => true

/-- JS truthiness of the optional `debounceMs` number, as tested by
`if (options.debounceMs)` (part_000 lines 58 and 139): `undefined` and `0`
are falsy, every other number is truthy. -/
def jsTruthy : Option Nat → Bool
  | none => false
  | some n => n != 0

/-- Shape of a JS value as far as `extractErrorMessage` inspects it: a
string, an object (of which only the question "is its `error` property a
string, and which one" is ever observed), or anything else. -/
inductive JsVal where
  | str (s : String)
  | obj (errField : Option String)
  | other
  deriving DecidableEq, Repr

/-- A producer failure payload as inspected by `extractErrorMessage`
(part_001 lines 178-187): its optional `name` and optional `error`
properties. -/
structure ErrVal where
  name : Option String := none
  error : Option JsVal := none
  deriving DecidableEq, Repr

/-- `typeof v === 'string'` applied to an optional JS value, yielding the
string when it is one. -/
def topErrorString : Option JsVal → Option String
  | some (JsVal.str s) => some s
  | _ => none

/-- `typeof v?.error === 'string'` applied to an optional JS value. -/
def nestedErrorString : Option JsVal → Option String
  | some (JsVal.obj f) => f
  | _ => none

/-- `extractErrorMessage` (part_001 lines 178-187): starting from
`errorMsg = ''`, if the payload is named `HttpErrorResponse` and its `error`
property is a string, take it; else if that property's own `error` property
is a string, take that; otherwise the initial empty string is returned.
The two conditions are checked in source order (top-level first). -/
def extractErrorMessage (err : ErrVal) : String :=
  if err.name = some "HttpErrorResponse" then
    match topErrorString err.error with
    | some s => s
    | none =>
      match nestedErrorString err.error with
      | some s => s
      | none => ""
  else ""

/-- The per-invocation success slot of the handler record.  A plain
registration (`onSuccess(cb)`, part_000 lines 114-117) stores a callback,
identified here by a numeric tag; `continueWith(nextActionFn)` (part_000
lines 126-135) replaces the slot by a wrapper that first invokes the
previously stored callback, if any, and then the follow-up action. -/
inductive SuccessSlot where
  | cb (tag : Nat)
  | chainedNone (tag : Nat)
  | chainedSome (orig : SuccessSlot) (tag : Nat)
  deriving DecidableEq, Repr

/-- The wrapper installed by `continueWith` over the current success slot
(part_000 lines 129-133): `chainedNone` when no success callback was
registered yet, `chainedSome` over the previous slot otherwise. -/
def SuccessSlot.chained : Option SuccessSlot → Nat → SuccessSlot
  | none, t => SuccessSlot.chainedNone t
  | some s, t => SuccessSlot.chainedSome s t

/-- The mutable handler record `currentHandlers` (part_000 lines 50-55):
optional `loading` / `success` / `error` / `finally` slots.  Except for the
success slot, whose `continueWith` structure matters, callbacks are modelled
by their presence. -/
structure Handlers where
  loading : Bool := false
  success : Option SuccessSlot := none
  error : Bool := false
  fin : Bool := false
  deriving DecidableEq, Repr

/-- A registration step performed on the chainable builder returned by
`run` (part_000 lines 109-136). -/
inductive Reg where
  | loading
  | success (tag : Nat)
  | error
  | fin
  | continueWith (tag : Nat)
  deriving DecidableEq, Repr

/-- Effect of one builder call on the handler record (part_000 lines
109-136): each `onX` overwrites its slot; `continueWith` wraps the current
success slot. -/
def applyReg (h : Handlers) : Reg → Handlers
  | Reg.loading => { h with loading := true }
  | Reg.success t => { h with success := some (SuccessSlot.cb t) }
  | Reg.error => { h with error := true }
  | Reg.fin => { h with fin := true }
  | Reg.continueWith t => { h with success := some (SuccessSlot.chained h.success t) }

/-- The handler record obtained after `run` reset `currentHandlers = {}`
(part_000 line 108) and the caller performed `regs` chained registrations
synchronously.  Because `run` defers the dispatch with `setTimeout(..., 0)`
(part_000 lines 138-145), all of these registrations happen before
`executeObservable` captures the record. -/
def applyRegs (regs : List Reg) : Handlers :=
  regs.foldl applyReg {}

/-- One observable step performed by the controller: a signal write, a
tracker call, the producer subscription, or a callback invocation.
`A` is the argument tuple type, `R` the result type, `E` the raw failure
payload type. -/
inductive Ev (A R E : Type) where
  | statusSet (s : AsyncStatus)
  | errorSet (v : Option String)
  | trackBegin (id : String)
  | trackSuccess (id : String)
  | trackError (id : String) (msg : String)
  | subscribeProducer (args : A)
  | optLoading (args : A)
  | hLoading (args : A)
  | optSuccess (d : R) (args : A)
  | hSuccess (tag : Nat) (d : R) (args : A)
  | optError (msg : String) (args : A)
  | hError (msg : String) (args : A)
  | hFinally
  | continueWithRun (tag : Nat) (d : R) (args : A)
  deriving DecidableEq, Repr

/-- Events produced by invoking a success slot with the settled data
(part_000 lines 129-133: the wrapper runs the original callback first, then
the follow-up action). -/
def invokeSlot {A R E : Type} : SuccessSlot → R → A → List (Ev A R E)
  | SuccessSlot.cb t, d, a => [Ev.hSuccess t d a]
  | SuccessSlot.chainedNone t, d, a => [Ev.continueWithRun t d a]
  | SuccessSlot.chainedSome s t, d, a =>
      invokeSlot s d a ++ [Ev.continueWithRun t d a]

/-- `handlers.success?.(data, ...args)` (part_000 line 88). -/
def invokeSuccess {A R E : Type} : Option SuccessSlot → R → A → List (Ev A R E)
  | none, _, _ => []
  | some s, d, a => invokeSlot s d a

/-- The synchronous dispatch part of `executeObservable` (part_000 lines
69-83 together with the `.subscribe()` at line 143), followed by the
microtask-delivered loading callbacks (lines 77-80): set status to
`loading`, clear the error signal, register the fresh id with the tracker
when tracking is on, subscribe the producer, then run the controller-level
and per-invocation loading callbacks. -/
def dispatchTrace {A R E : Type} (o : ActionOptions) (h : Handlers)
    (uid : String) (args : A) : List (Ev A R E) :=
  [Ev.statusSet AsyncStatus.loading, Ev.errorSet none]
    ++ (if tracked o then [Ev.trackBegin uid] else [])
    ++ [Ev.subscribeProducer args]
    ++ (if o.onLoading then [Ev.optLoading args] else [])
    ++ (if h.loading then [Ev.hLoading args] else [])

/-- The settle part of `executeObservable`: the `next` branch (part_000
lines 84-91) or the `error` branch (lines 92-100, with part_001's
normalization `norm` applied to the raw failure as at part_001 lines
91-100; `norm := fun e => e` recovers part_000, which passes the raw
error through). -/
def settleTrace {A R E : Type} (norm : E → String) (o : ActionOptions)
    (h : Handlers) (uid : String) (args : A) (outcome : Outcome R E) :
    List (Ev A R E) :=
  match outcome with
  | Outcome.success d =>
      [Ev.statusSet AsyncStatus.success]
        ++ (if tracked o then [Ev.trackSuccess uid] else [])
        ++ (if o.onSuccess then [Ev.optSuccess d args] else [])
        ++ invokeSuccess h.success d args
        ++ (if h.fin then [Ev.hFinally] else [])
  | Outcome.failure e =>
      [Ev.errorSet (some (norm e)), Ev.statusSet AsyncStatus.error]
        ++ (if tracked o then [Ev.trackError uid (norm e)] else [])
        ++ (if o.onError then [Ev.optError (norm e) args] else [])
        ++ (if h.error then [Ev.hError (norm e) args] else [])
        ++ (if h.fin then [Ev.hFinally] else [])

/-- Full event trace of one dispatched invocation of `executeObservable`
whose producer settles with `outcome`. -/
def executeObservableTrace {A R E : Type} (norm : E → String)
    (o : ActionOptions) (h : Handlers) (uid : String) (args : A)
    (outcome : Outcome R E) : List (Ev A R E) :=
  dispatchTrace o h uid args ++ settleTrace norm o h uid args outcome

/-- The controller's shared signal state (part_000 lines 40-41): the
`status` and `error` writable signals. -/
structure CtrlState where
  status : AsyncStatus := AsyncStatus.idle
  errorSig : Option String := none
  deriving DecidableEq, Repr

/-- Whole-controller machine state: the injected global tracker, the shared
signals, the single-slot `currentSub` subscription (part_000 line 47,
holding the subscription id of the most recently dispatched invocation),
and a counter supplying fresh subscription ids. -/
structure MachineState where
  tracker : TrackerState := {}
  ctrl : CtrlState := {}
  currentSub : Option Nat := none
  nextSub : Nat := 0
  deriving DecidableEq

/-- Effect of one trace event on the machine state.  Callback-invocation
events and the producer subscription do not change the shared state. -/
def applyEvM {A R E : Type} (st : MachineState) : Ev A R E → MachineState
  | Ev.statusSet s => { st with ctrl := { st.ctrl with status := s } }
  | Ev.errorSet v => { st with ctrl := { st.ctrl with errorSig := v } }
  | Ev.trackBegin id => { st with tracker := st.tracker.begin id }
  | Ev.trackSuccess id => { st with tracker := st.tracker.success id }
  | Ev.trackError id m => { st with tracker := st.tracker.error id m }
  | _ => st

/-- Fold a trace over the machine state. -/
def applyEvs {A R E : Type} (st : MachineState) (evs : List (Ev A R E)) :
    MachineState :=
  evs.foldl applyEvM st

/-- The non-debounced dispatch performed by `run`'s deferred body (part_000
lines 141-144): `if (currentSub) currentSub.unsubscribe()` tears down the
previous invocation's subscription (producing no events), then
`currentSub = executeObservable(...args).subscribe()` dispatches the new
invocation.  The new subscription gets the fresh id `st.nextSub`. -/
def dispatchImmediate {A : Type} (o : ActionOptions) (h : Handlers)
    (uid : String) (args : A) (st : MachineState) : MachineState :=
  { applyEvs st (dispatchTrace (A := A) (R := Unit) (E := Unit) o h uid args) with
    currentSub := some st.nextSub
    nextSub := st.nextSub + 1 }

/-- Delivery of a dispatched invocation's settle events.  In rxjs, once a
subscription has been unsubscribed (here: once `currentSub` has moved on to
a newer subscription id), its `next`/`error` handlers are never invoked, so
a superseded invocation delivers nothing and leaves the state untouched. -/
def settleDeliver {A R E : Type} (norm : E → String) (o : ActionOptions)
    (h : Handlers) (uid : String) (args : A) (outcome : Outcome R E)
    (subId : Nat) (st : MachineState) :
    List (Ev A R E) × MachineState :=
  if st.currentSub = some subId then
    let evs := settleTrace norm o h uid args outcome
    (evs, applyEvs st evs)
  else ([], st)

/-- `forkJoin` over named sub-producers (rxjs), as used by
`createSignalForkJoinAction` (part_000 lines 160-165): given the
sub-producers' terminal outcomes in settle order, the joined producer fails
with the first failure's payload as soon as any sub-producer fails, and
succeeds with the aggregated named-result record (modelled as an
association list) only when every sub-producer succeeds. -/
def forkJoinOutcome {V E : Type} :
    List (String × Outcome V E) → Outcome (List (String × V)) E
  | [] => Outcome.success []
  | (k, o) :: rest =>
    match o with
    | Outcome.failure e => Outcome.failure e
    | Outcome.success v =>
      match forkJoinOutcome rest with
      | Outcome.failure e => Outcome.failure e
      | Outcome.success vs => Outcome.success ((k, v) :: vs)

/-- The named values of the sub-producers that succeeded, in order. -/
def successValues {V E : Type} :
    List (String × Outcome V E) → List (String × V) :=
  List.filterMap fun p =>
    match p.2 with
    | Outcome.success v => some (p.1, v)
    | Outcome.failure _ => none

/-- The first failing sub-producer (in settle order), with its error. -/
def firstFailure {V E : Type} :
    List (String × Outcome V E) → Option (String × E)
  | [] => none
  | (k, Outcome.failure e) :: _ => some (k, e)
  | (_, Outcome.success _) :: rest => firstFailure rest

/-- `debounceTime(d)` (part_000 lines 59-66) over a time-stamped list of
`runSubject` emissions (times in ascending order): each value restarts the
wait window; a value is delivered `d` after it arrived provided no newer
value arrived within the window. -/
def debounceEmits {A : Type} (d : Nat) : List (Nat × A) → List (Nat × A)
  | [] => []
  | (t, a) :: rest =>
    match rest with
    | [] => [(t + d, a)]
    | (t2, _) :: _ =>
      if t2 < t + d then debounceEmits d rest
      else (t + d, a) :: debounceEmits d rest

/-- The full event trace of the debounced pipeline (part_000 lines 58-67):
each emission surviving `debounceTime` is handed to `switchMap`, which
dispatches `executeObservable` for it.  `uidf` supplies the fresh id and
`outf` the producer outcome for each dispatch. -/
def debouncedRunTrace {A R E : Type} (norm : E → String) (o : ActionOptions)
    (h : Handlers) (uidf : Nat × A → String) (outf : Nat × A → Outcome R E)
    (d : Nat) (events : List (Nat × A)) : List (Ev A R E) :=
  ((debounceEmits d events).map fun p =>
    executeObservableTrace norm o h (uidf p) p.2 (outf p)).flatten

/-- Whether `createBaseAction` sets up the debounced stream at construction
(part_000 lines 57-67): it does iff `options.debounceMs` is truthy. -/
def setsUpDebouncePipeline (o : ActionOptions) : Bool :=
  jsTruthy o.debounceMs

/-- The route taken by `run`'s deferred dispatch body (part_000 lines
138-145): with a truthy `debounceMs` the arguments go to `runSubject` (no
trace yet; the debounce pipeline dispatches later), otherwise the
invocation is dispatched immediately and produces its full trace. -/
def runDispatchTrace {A R E : Type} (norm : E → String) (o : ActionOptions)
    (h : Handlers) (uid : String) (args : A) (outcome : Outcome R E) :
    List (Ev A R E) :=
  if jsTruthy o.debounceMs then []
  else executeObservableTrace norm o h uid args outcome

/-- Predicate: the event is a `status` signal write. -/
def isStatusSet {A R E : Type} : Ev A R E → Bool
  | Ev.statusSet _ => true
  | _ => false

/-- Predicate: the event writes the given status value. -/
def isStatusSetTo {A R E : Type} (s : AsyncStatus) : Ev A R E → Bool
  | Ev.statusSet s2 => s2 = s
  | _ => false

/-- Predicate: the event is the producer subscription. -/
def isSubscribe {A R E : Type} : Ev A R E → Bool
  | Ev.subscribeProducer _ => true
  | _ => false

/-- Predicate: the event invokes a success callback (controller-level
`onSuccess`, per-invocation `onSuccess`, or a `continueWith` follow-up). -/
def isSuccessCbEv {A R E : Type} : Ev A R E → Bool
  | Ev.optSuccess _ _ => true
  | Ev.hSuccess _ _ _ => true
  | Ev.continueWithRun _ _ _ => true
  | _ => false

/-- Predicate: the event is `tracker.begin` for the given id. -/
def isTrackBeginOf {A R E : Type} (uid : String) : Ev A R E → Bool
  | Ev.trackBegin i => i = uid
  | _ => false

/-- Predicate: the event removes the given id from the tracker
(`tracker.success` or `tracker.error`). -/
def isTrackRemoveOf {A R E : Type} (uid : String) : Ev A R E → Bool
  | Ev.trackSuccess i => i = uid
  | Ev.trackError i _ => i = uid
  | _ => false

lemma mem_ite_list {α : Type} {c : Prop} [Decidable c] {l : List α} {a : α} :
    (a ∈ if c then l else []) ↔ c ∧ a ∈ l := by
  split <;> simp_all

lemma countP_ite_list {α : Type} {c : Prop} [Decidable c] {l : List α}
    (p : α → Bool) :
    (if c then l else []).countP p = if c then l.countP p else 0 := by
  split <;> simp

lemma invokeSlot_mem {A R E : Type} {ev : Ev A R E} :
    ∀ {s : SuccessSlot} {d : R} {a : A}, ev ∈ invokeSlot s d a →
      (∃ t, ev = Ev.hSuccess t d a) ∨ (∃ t, ev = Ev.continueWithRun t d a) := by
  intro s
  induction s with
  | cb t => intro d a hm; simp [invokeSlot] at hm; exact Or.inl ⟨t, hm⟩
  | chainedNone t => intro d a hm; simp [invokeSlot] at hm; exact Or.inr ⟨t, hm⟩
  | chainedSome s t ih =>
    intro d a hm
    simp only [invokeSlot, List.mem_append, List.mem_singleton] at hm
    rcases hm with hm | hm
    · exact ih hm
    · exact Or.inr ⟨t, hm⟩

lemma invokeSuccess_mem {A R E : Type} {ev : Ev A R E}
    {s : Option SuccessSlot} {d : R} {a : A} (hm : ev ∈ invokeSuccess s d a) :
    (∃ t, ev = Ev.hSuccess t d a) ∨ (∃ t, ev = Ev.continueWithRun t d a) := by
  cases s with
  | none => simp [invokeSuccess] at hm
  | some s => exact invokeSlot_mem hm

lemma countP_invokeSuccess_eq_zero {A R E : Type} {p : Ev A R E → Bool}
    {s : Option SuccessSlot} {d : R} {a : A}
    (hs : ∀ t, p (Ev.hSuccess t d a) = false)
    (hc : ∀ t, p (Ev.continueWithRun t d a) = false) :
    (invokeSuccess s d a).countP p = 0 := by
  rw [List.countP_eq_zero]
  intro ev hm
  rcases invokeSuccess_mem hm with ⟨t, rfl⟩ | ⟨t, rfl⟩
  · simp [hs t]
  · simp [hc t]

lemma applyEvs_append {A R E : Type} (st : MachineState)
    (l1 l2 : List (Ev A R E)) :
    applyEvs st (l1 ++ l2) = applyEvs (applyEvs st l1) l2 := by
  simp [applyEvs, List.foldl_append]

lemma applyEvs_ite {A R E : Type} (st : MachineState) {c : Prop}
    [Decidable c] (l : List (Ev A R E)) :
    applyEvs st (if c then l else []) =
      if c then applyEvs st l else st := by
  split <;> simp [applyEvs]

lemma applyEvs_invokeSlot {A R E : Type} :
    ∀ (s : SuccessSlot) (st : MachineState) (d : R) (a : A),
      applyEvs st (invokeSlot (E := E) s d a) = st := by
  intro s
  induction s with
  | cb t => intro st d a; simp [invokeSlot, applyEvs, applyEvM]
  | chainedNone t => intro st d a; simp [invokeSlot, applyEvs, applyEvM]
  | chainedSome s t ih =>
    intro st d a
    simp only [invokeSlot]
    rw [applyEvs_append, ih]
    simp [applyEvs, applyEvM]

lemma applyEvs_invokeSuccess {A R E : Type} (s : Option SuccessSlot)
    (st : MachineState) (d : R) (a : A) :
    applyEvs st (invokeSuccess (E := E) s d a) = st := by
  cases s with
  | none => simp [invokeSuccess, applyEvs]
  | some s => exact applyEvs_invokeSlot s st d a

lemma applyReg_loading_mono {h : Handlers} (r : Reg)
    (hl : h.loading = true) : (applyReg h r).loading = true := by
  cases r <;> simp [applyReg, hl]

lemma foldl_applyReg_loading_mono :
    ∀ (regs : List Reg) (h : Handlers), h.loading = true →
      (regs.foldl applyReg h).loading = true := by
  intro regs
  induction regs with
  | nil => intro h hl; simpa using hl
  | cons r rest ih =>
    intro h hl
    exact ih (applyReg h r) (applyReg_loading_mono r hl)

lemma applyRegs_loading_of_mem {regs : List Reg}
    (hm : Reg.loading ∈ regs) : (applyRegs regs).loading = true := by
  unfold applyRegs
  generalize hh : ({} : Handlers) = h0
  clear hh
  induction regs generalizing h0 with
  | nil => cases hm
  | cons r rest ih =>
    rcases List.mem_cons.mp hm with rfl | hm2
    · exact foldl_applyReg_loading_mono rest _ (by simp [applyReg])
    · exact ih hm2 _

lemma forkJoinOutcome_all_success {V E : Type} :
    ∀ {subs : List (String × Outcome V E)},
      (∀ p ∈ subs, ∃ v, p.2 = Outcome.success v) →
      forkJoinOutcome subs = Outcome.success (successValues subs) := by
  intro subs
  induction subs with
  | nil => intro _; simp [forkJoinOutcome, successValues]
  | cons p rest ih =>
    intro hall
    obtain ⟨v, hv⟩ := hall p (List.mem_cons_self p rest)
    obtain ⟨k, o⟩ := p
    simp only at hv
    subst hv
    have hrest := ih fun q hq => hall q (List.mem_cons_of_mem _ hq)
    simp [forkJoinOutcome, hrest, successValues]

lemma forkJoinOutcome_first_failure {V E : Type} :
    ∀ {subs : List (String × Outcome V E)} {k : String} {e : E},
      firstFailure subs = some (k, e) →
      forkJoinOutcome subs = Outcome.failure e := by
  intro subs
  induction subs with
  | nil => intro k e hf; simp [firstFailure] at hf
  | cons p rest ih =>
    intro k e hf
    obtain ⟨k2, o⟩ := p
    cases o with
    | failure e2 =>
      simp only [firstFailure, Option.some.injEq, Prod.mk.injEq] at hf
      simp [forkJoinOutcome, hf.2]
    | success v =>
      simp only [firstFailure] at hf
      simp [forkJoinOutcome, ih hf]

lemma firstFailure_mem {V E : Type} :
    ∀ {subs : List (String × Outcome V E)} {k : String} {e : E},
      firstFailure subs = some (k, e) → (k, Outcome.failure e) ∈ subs := by
  intro subs
  induction subs with
  | nil => intro k e hf; simp [firstFailure] at hf
  | cons p rest ih =>
    intro k e hf
    obtain ⟨k2, o⟩ := p
    cases o with
    | failure e2 =>
      simp only [firstFailure, Option.some.injEq, Prod.mk.injEq] at hf
      simp [hf.1, hf.2]
    | success v =>
      simp only [firstFailure] at hf
      exact List.mem_cons_of_mem _ (ih hf)

/-- C8: for the Global Tracker, `begin("x"); begin("x"); success("x")`
leaves `pendingCount() == 0` (idempotent add under set semantics, single
removal suffices); `begin("a"); begin("b"); error("a","boom")` leaves
`pendingCount() == 1` and `lastError()` holding `"boom"`; and `success` or
`error` for an id not in the pending set leaves the pending set
unchanged. -/
theorem c8_tracker_sequences (s : TrackerState) (id msg : String)
    (hid : id ∉ s.pending) :
    (((TrackerState.init.begin "x").begin "x").success "x").pendingCount = 0
    ∧ (((TrackerState.init.begin "a").begin "b").error "a" "boom").pendingCount = 1
    ∧ (((TrackerState.init.begin "a").begin "b").error "a" "boom").lastError
        = some "boom"
    ∧ (s.success id).pending = s.pending
    ∧ (s.error id msg).pending = s.pending := by
  refine ⟨by decide, by decide, by decide, ?_, ?_⟩
  · simp [TrackerState.success, Finset.erase_eq_of_not_mem hid]
  · simp [TrackerState.error, Finset.erase_eq_of_not_mem hid]

/-- Witness for C8 at a concrete tracker state and id. -/
theorem c8_tracker_sequences_witness :
    ("z" ∉ (TrackerState.init.begin "a").pending)
    ∧ ((TrackerState.init.begin "a").success "z").pending
        = (TrackerState.init.begin "a").pending :=
  ⟨by decide,
   (c8_tracker_sequences (TrackerState.init.begin "a") "z" "m" (by decide)).2.2.2.1⟩

/-- C10: a controller constructed with `debounceMs = 0` behaves exactly like
one constructed without `debounceMs`: `if (options.debounceMs)` tests JS
truthiness, and `0` is falsy, so no debounce pipeline is set up at
construction and `run` dispatches immediately. -/
theorem c10_debounce_zero_immediate {A R E : Type} (norm : E → String)
    (o : ActionOptions) (h : Handlers) (uid : String) (args : A)
    (outcome : Outcome R E) :
    runDispatchTrace norm { o with debounceMs := some 0 } h uid args outcome
      = runDispatchTrace norm { o with debounceMs := none } h uid args outcome
    ∧ runDispatchTrace norm { o with debounceMs := some 0 } h uid args outcome
      = executeObservableTrace norm { o with debounceMs := some 0 } h uid args
          outcome
    ∧ setsUpDebouncePipeline { o with debounceMs := some 0 } = false
    ∧ setsUpDebouncePipeline { o with debounceMs := none } = false := by
  refine ⟨?_, ?_, ?_, ?_⟩ <;>
    simp [runDispatchTrace, setsUpDebouncePipeline, jsTruthy,
      executeObservableTrace, dispatchTrace, settleTrace, tracked]

/-- C5 counterexample: the claim requires a generic NON-EMPTY fallback
message when neither structured string field is present, but
`extractErrorMessage` initializes `errorMsg = ''` and returns it unchanged
in that case: a failure payload that is not an `HttpErrorResponse` is
normalized to the empty string (length 0). -/
theorem c5_counterexample :
    extractErrorMessage { name := some "Error", error := none } = ""
    ∧ (extractErrorMessage { name := some "Error", error := none }).length
        = 0 := by
  exact ⟨rfl, rfl⟩

/-- C5 (amended): producer failures are normalized by a fallback chain —
the top-level error string field, else the nested error-body error string
field (the two cases are mutually exclusive, so the order is immaterial),
else the EMPTY string (not a non-empty generic message) — and the resulting
string is stored in the error signal, passed to the tracker and to the
controller-level and per-invocation error callbacks, followed by
`finally`, with the failure consumed at the controller boundary. -/
theorem c5_error_normalization {A R : Type} (err : ErrVal)
    (o : ActionOptions) (h : Handlers) (uid : String) (args : A)
    (he : h.error = true) (hf : h.fin = true) :
    (∀ s, err.name = some "HttpErrorResponse" →
        err.error = some (JsVal.str s) → extractErrorMessage err = s)
    ∧ (∀ s, err.name = some "HttpErrorResponse" →
        err.error = some (JsVal.obj (some s)) → extractErrorMessage err = s)
    ∧ (err.name ≠ some "HttpErrorResponse" → extractErrorMessage err = "")
    ∧ (err.name = some "HttpErrorResponse" → topErrorString err.error = none →
        nestedErrorString err.error = none → extractErrorMessage err = "")
    ∧ Ev.errorSet (A := A) (R := R) (some (extractErrorMessage err))
        ∈ executeObservableTrace extractErrorMessage o h uid args
            (Outcome.failure err)
    ∧ (tracked o = true →
        Ev.trackError (A := A) (R := R) uid (extractErrorMessage err)
          ∈ executeObservableTrace extractErrorMessage o h uid args
              (Outcome.failure err))
    ∧ (o.onError = true →
        Ev.optError (R := R) (extractErrorMessage err) args
          ∈ executeObservableTrace extractErrorMessage o h uid args
              (Outcome.failure err))
    ∧ Ev.hError (R := R) (extractErrorMessage err) args
        ∈ executeObservableTrace extractErrorMessage o h uid args
            (Outcome.failure err)
    ∧ Ev.hFinally (A := A) (R := R) (E := ErrVal)
        ∈ executeObservableTrace extractErrorMessage o h uid args
            (Outcome.failure err) := by
  refine ⟨?_, ?_, ?_, ?_, ?_, ?_, ?_, ?_, ?_⟩
  · intro s h1 h2; simp [extractErrorMessage, h1, h2, topErrorString]
  · intro s h1 h2
    simp [extractErrorMessage, h1, h2, topErrorString, nestedErrorString]
  · intro h1; simp [extractErrorMessage, h1]
  · intro h1 h2 h3; simp [extractErrorMessage, h1, h2, h3]
  · simp [executeObservableTrace, dispatchTrace, settleTrace,
      List.mem_append, mem_ite_list]
  · intro h1
    simp [executeObservableTrace, dispatchTrace, settleTrace,
      List.mem_append, mem_ite_list, h1]
  · intro h1
    simp [executeObservableTrace, dispatchTrace, settleTrace,
      List.mem_append, mem_ite_list, h1]
  · simp [executeObservableTrace, dispatchTrace, settleTrace,
      List.mem_append, mem_ite_list, he]
  · simp [executeObservableTrace, dispatchTrace, settleTrace,
      List.mem_append, mem_ite_list, hf]

/-- Witness for C5 at a concrete failure payload and handler record. -/
theorem c5_error_normalization_witness :
    (({ loading := false, success := none, error := true, fin := true } :
        Handlers).error = true)
    ∧ Ev.hError (A := Nat) (R := Nat)
        (extractErrorMessage
          { name := some "HttpErrorResponse", error := some (JsVal.str "boom") })
        0
        ∈ executeObservableTrace extractErrorMessage {}
            { loading := false, success := none, error := true, fin := true }
            "id0" 0
            (Outcome.failure
              { name := some "HttpErrorResponse",
                error := some (JsVal.str "boom") }) :=
  ⟨rfl,
   (c5_error_normalization
      { name := some "HttpErrorResponse", error := some (JsVal.str "boom") }
      {} { loading := false, success := none, error := true, fin := true }
      "id0" (0 : Nat) (R := Nat) rfl rfl).2.2.2.2.2.2.2.1⟩

/-- C6: because `run` resets the handler record and defers the dispatch
with `setTimeout(..., 0)`, every registration chained synchronously after
`run` lands in the record before `executeObservable` captures it; the
loading notification is delivered by `queueMicrotask` after the dispatch,
controller-level `onLoading` immediately followed by the per-invocation
`onLoading`.  Hence an `onLoading` callback registered synchronously after
`run` is invoked for that invocation. -/
theorem c6_loading_deferred {A R E : Type} (norm : E → String)
    (o : ActionOptions) (regs : List Reg) (hm : Reg.loading ∈ regs)
    (uid : String) (args : A) (outcome : Outcome R E) :
    Ev.hLoading args
      ∈ executeObservableTrace norm o (applyRegs regs) uid args outcome
    ∧ (o.onLoading = true →
        ∃ l1 l2,
          executeObservableTrace norm o (applyRegs regs) uid args outcome
            = l1 ++ [Ev.optLoading args, Ev.hLoading args] ++ l2) := by
  have hl : (applyRegs regs).loading = true := applyRegs_loading_of_mem hm
  constructor
  · simp [executeObservableTrace, dispatchTrace, List.mem_append,
      mem_ite_list, hl]
  · intro ho
    refine ⟨[Ev.statusSet AsyncStatus.loading, Ev.errorSet none]
        ++ (if tracked o then [Ev.trackBegin uid] else [])
        ++ [Ev.subscribeProducer args],
      settleTrace norm o (applyRegs regs) uid args outcome, ?_⟩
    simp [executeObservableTrace, dispatchTrace, hl, ho]

/-- Witness for C6: a loading callback registered (alone) on the chain. -/
theorem c6_loading_deferred_witness :
    Reg.loading ∈ [Reg.loading]
    ∧ Ev.hLoading (R := Nat) (E := Nat) (0 : Nat)
        ∈ executeObservableTrace (fun _ => "") {} (applyRegs [Reg.loading])
            "id0" 0 (Outcome.success 0) :=
  ⟨by decide,
   (c6_loading_deferred (fun _ => "") {} [Reg.loading] (by decide) "id0"
      (0 : Nat) (Outcome.success (0 : Nat))).1⟩

/-- C7: with `onSuccess(cb₁)` registered and then `continueWith(next)`
chained, a successful settle runs the controller-level `onSuccess` first,
then the previously registered per-invocation callback (not dropped), then
the follow-up action with the invocation's result: these are exactly the
success-callback events of the trace, in that order. -/
theorem c7_continueWith_preserves_onSuccess {A R E : Type}
    (norm : E → String) (o : ActionOptions) (ho : o.onSuccess = true)
    (h0 : Handlers) (t1 t2 : Nat) (uid : String) (args : A) (d : R) :
    (executeObservableTrace norm o
        (applyReg (applyReg h0 (Reg.success t1)) (Reg.continueWith t2))
        uid args (Outcome.success d)).filter isSuccessCbEv
      = [Ev.optSuccess d args, Ev.hSuccess t1 d args,
         Ev.continueWithRun t2 d args] := by
  have hs : (applyReg (applyReg h0 (Reg.success t1))
      (Reg.continueWith t2)).success
      = some (SuccessSlot.chainedSome (SuccessSlot.cb t1) t2) := by
    simp [applyReg, SuccessSlot.chained]
  cases ht : tracked o <;> cases hol : o.onLoading <;>
    cases hhl : (applyReg (applyReg h0 (Reg.success t1))
      (Reg.continueWith t2)).loading <;>
    cases hhf : (applyReg (applyReg h0 (Reg.success t1))
      (Reg.continueWith t2)).fin <;>
    simp [executeObservableTrace, dispatchTrace, settleTrace, hs, ht, hol,
      hhl, hhf, ho, invokeSuccess, invokeSlot, List.filter_append,
      isSuccessCbEv]

/-- Witness for C7 at concrete tags, data and arguments. -/
theorem c7_continueWith_preserves_onSuccess_witness :
    (({ onSuccess := true } : ActionOptions).onSuccess = true)
    ∧ (executeObservableTrace (E := Nat) (fun _ => "") { onSuccess := true }
        (applyReg (applyReg {} (Reg.success 1)) (Reg.continueWith 2))
        "id0" (5 : Nat) (Outcome.success (7 : Nat))).filter isSuccessCbEv
      = [Ev.optSuccess 7 5, Ev.hSuccess 1 7 5, Ev.continueWithRun 2 7 5] :=
  ⟨rfl,
   c7_continueWith_preserves_onSuccess (fun _ => "") { onSuccess := true }
     rfl {} 1 2 "id0" (5 : Nat) (7 : Nat)⟩

lemma statusSet_not_mem_invokeSuccess {A R E : Type} {s2 : AsyncStatus}
    {s : Option SuccessSlot} {d : R} {a : A} :
    Ev.statusSet (A := A) (E := E) s2 ∉ invokeSuccess s d a := by
  intro hm
  rcases invokeSuccess_mem hm with ⟨t, ht⟩ | ⟨t, ht⟩ <;> simp at ht

lemma errorSet_not_mem_invokeSuccess {A R E : Type} {v : Option String}
    {s : Option SuccessSlot} {d : R} {a : A} :
    Ev.errorSet (A := A) (E := E) v ∉ invokeSuccess s d a := by
  intro hm
  rcases invokeSuccess_mem hm with ⟨t, ht⟩ | ⟨t, ht⟩ <;> simp at ht

lemma subscribe_not_mem_invokeSuccess {A R E : Type} {b : A}
    {s : Option SuccessSlot} {d : R} {a : A} :
    Ev.subscribeProducer (R := R) (E := E) b ∉ invokeSuccess s d a := by
  intro hm
  rcases invokeSuccess_mem hm with ⟨t, ht⟩ | ⟨t, ht⟩ <;> simp at ht

lemma hError_not_mem_invokeSuccess {A R E : Type} {m : String} {b : A}
    {s : Option SuccessSlot} {d : R} {a : A} :
    Ev.hError (R := R) (E := E) m b ∉ invokeSuccess s d a := by
  intro hm
  rcases invokeSuccess_mem hm with ⟨t, ht⟩ | ⟨t, ht⟩ <;> simp at ht

lemma optError_not_mem_invokeSuccess {A R E : Type} {m : String} {b : A}
    {s : Option SuccessSlot} {d : R} {a : A} :
    Ev.optError (R := R) (E := E) m b ∉ invokeSuccess s d a := by
  intro hm
  rcases invokeSuccess_mem hm with ⟨t, ht⟩ | ⟨t, ht⟩ <;> simp at ht

lemma countP_executeObservableTrace_subscribe {A R E : Type}
    (norm : E → String) (o : ActionOptions) (h : Handlers) (uid : String)
    (args : A) (outcome : Outcome R E) :
    (executeObservableTrace norm o h uid args outcome).countP isSubscribe
      = 1 := by
  have hz : ∀ (s : Option SuccessSlot) (d : R),
      (invokeSuccess (A := A) (E := E) s d args).countP isSubscribe = 0 :=
    fun s d => countP_invokeSuccess_eq_zero (fun _ => rfl) (fun _ => rfl)
  cases outcome <;>
    simp [executeObservableTrace, dispatchTrace, settleTrace,
      List.countP_append, countP_ite_list, hz, isSubscribe, List.countP_cons]

lemma countP_executeObservableTrace_loading {A R E : Type}
    (norm : E → String) (o : ActionOptions) (h : Handlers) (uid : String)
    (args : A) (outcome : Outcome R E) :
    (executeObservableTrace norm o h uid args outcome).countP
        (isStatusSetTo AsyncStatus.loading) = 1 := by
  have hz : ∀ (s : Option SuccessSlot) (d : R),
      (invokeSuccess (A := A) (E := E) s d args).countP
        (isStatusSetTo AsyncStatus.loading) = 0 :=
    fun s d => countP_invokeSuccess_eq_zero (fun _ => rfl) (fun _ => rfl)
  cases outcome <;>
    simp [executeObservableTrace, dispatchTrace, settleTrace,
      List.countP_append, countP_ite_list, hz, isStatusSetTo,
      List.countP_cons]

lemma subscribeProducer_mem_trace {A R E : Type} {norm : E → String}
    {o : ActionOptions} {h : Handlers} {uid : String} {a args : A}
    {outcome : Outcome R E}
    (hm : Ev.subscribeProducer a
        ∈ executeObservableTrace norm o h uid args outcome) :
    a = args := by
  cases outcome <;>
    simp [executeObservableTrace, dispatchTrace, settleTrace,
      List.mem_append, mem_ite_list, subscribe_not_mem_invokeSuccess] at hm
      <;> tauto

/-- C9: every dispatched invocation writes `loading` to the status signal
first (before the producer settles), and when the producer settles the
status is set to exactly one of `success` / `error` — never both — with the
normalized message written to the error signal on the error transition; the
status signal only ever receives enumerated `AsyncStatus` values. -/
theorem c9_status_transitions {A R E : Type} (norm : E → String)
    (o : ActionOptions) (h : Handlers) (uid : String) (args : A)
    (outcome : Outcome R E) :
    (executeObservableTrace norm o h uid args outcome).head?
      = some (Ev.statusSet AsyncStatus.loading)
    ∧ (executeObservableTrace norm o h uid args outcome).countP
          (isStatusSetTo AsyncStatus.success)
        + (executeObservableTrace norm o h uid args outcome).countP
          (isStatusSetTo AsyncStatus.error) = 1
    ∧ (∀ e, outcome = Outcome.failure e →
        Ev.errorSet (some (norm e))
          ∈ executeObservableTrace norm o h uid args outcome)
    ∧ (∀ s, Ev.statusSet s ∈ executeObservableTrace norm o h uid args outcome →
        s = AsyncStatus.loading ∨ s = AsyncStatus.success
          ∨ s = AsyncStatus.error) := by
  have hzs : ∀ (s : Option SuccessSlot) (d : R),
      (invokeSuccess (A := A) (E := E) s d args).countP
        (isStatusSetTo AsyncStatus.success) = 0 :=
    fun s d => countP_invokeSuccess_eq_zero (fun _ => rfl) (fun _ => rfl)
  have hze : ∀ (s : Option SuccessSlot) (d : R),
      (invokeSuccess (A := A) (E := E) s d args).countP
        (isStatusSetTo AsyncStatus.error) = 0 :=
    fun s d => countP_invokeSuccess_eq_zero (fun _ => rfl) (fun _ => rfl)
  refine ⟨?_, ?_, ?_, ?_⟩
  · simp [executeObservableTrace, dispatchTrace]
  · cases outcome <;>
      simp [executeObservableTrace, dispatchTrace, settleTrace,
        List.countP_append, countP_ite_list, hzs, hze, isStatusSetTo,
        List.countP_cons]
  · intro e heq
    subst heq
    simp [executeObservableTrace, dispatchTrace, settleTrace,
      List.mem_append, mem_ite_list]
  · intro s hm
    cases outcome <;>
      simp [executeObservableTrace, dispatchTrace, settleTrace,
        List.mem_append, mem_ite_list,
        statusSet_not_mem_invokeSuccess] at hm <;> tauto

/-- Witness for C9 at a concrete failing invocation. -/
theorem c9_status_transitions_witness :
    Outcome.failure (E := String) (R := Nat) "boom" = Outcome.failure "boom"
    ∧ Ev.errorSet (A := Nat) (R := Nat) (some "boom")
        ∈ executeObservableTrace (fun m => m) {} {} "id0" (0 : Nat)
            (Outcome.failure "boom") :=
  ⟨rfl,
   ((c9_status_transitions (fun m => m) {} {} "id0" (0 : Nat)
      (Outcome.failure (R := Nat) "boom")).2.2.1 "boom" rfl)⟩

/-- C1: a parallel-result controller (`createSignalForkJoinAction`)
dispatches `forkJoin` of the named sub-producers through the shared
execution path, with `onSuccess(cb)` and `onError(cb)` registered on the
invocation's chain.  If every sub-producer succeeds, the success callbacks
(controller-level and per-invocation) receive the single aggregated
named-result record and no error callback fires; if any sub-producer fails,
the error callbacks receive the (first) failing sub-producer's error
payload unchanged and no success callback of any kind fires for the
invocation, regardless of the other sub-producers' outcomes. -/
theorem c1_forkJoin_all_or_nothing {V TReq : Type} (o : ActionOptions)
    (lb fb : Bool) (t : Nat) (uid : String) (req : TReq)
    (subs : List (String × Outcome V String)) :
    ((∀ p ∈ subs, ∃ v, p.2 = Outcome.success v) →
       Ev.hSuccess t (successValues subs) req
         ∈ executeObservableTrace (fun m => m) o
             { loading := lb, success := some (SuccessSlot.cb t),
               error := true, fin := fb } uid req (forkJoinOutcome subs)
       ∧ (o.onSuccess = true →
           Ev.optSuccess (successValues subs) req
             ∈ executeObservableTrace (fun m => m) o
                 { loading := lb, success := some (SuccessSlot.cb t),
                   error := true, fin := fb } uid req (forkJoinOutcome subs))
       ∧ (∀ m (a : TReq), Ev.hError m a
             ∉ executeObservableTrace (fun m2 => m2) o
                 { loading := lb, success := some (SuccessSlot.cb t),
                   error := true, fin := fb } uid req (forkJoinOutcome subs))
       ∧ (∀ m (a : TReq), Ev.optError m a
             ∉ executeObservableTrace (fun m2 => m2) o
                 { loading := lb, success := some (SuccessSlot.cb t),
                   error := true, fin := fb } uid req (forkJoinOutcome subs)))
    ∧ (∀ (k : String) (e : String), firstFailure subs = some (k, e) →
       (k, Outcome.failure e) ∈ subs
       ∧ Ev.hError e req
           ∈ executeObservableTrace (fun m => m) o
               { loading := lb, success := some (SuccessSlot.cb t),
                 error := true, fin := fb } uid req (forkJoinOutcome subs)
       ∧ (∀ tg (d : List (String × V)) (a : TReq), Ev.hSuccess tg d a
             ∉ executeObservableTrace (fun m => m) o
                 { loading := lb, success := some (SuccessSlot.cb t),
                   error := true, fin := fb } uid req (forkJoinOutcome subs))
       ∧ (∀ (d : List (String × V)) (a : TReq), Ev.optSuccess d a
             ∉ executeObservableTrace (fun m => m) o
                 { loading := lb, success := some (SuccessSlot.cb t),
                   error := true, fin := fb } uid req (forkJoinOutcome subs))
       ∧ (∀ tg (d : List (String × V)) (a : TReq), Ev.continueWithRun tg d a
             ∉ executeObservableTrace (fun m => m) o
                 { loading := lb, success := some (SuccessSlot.cb t),
                   error := true, fin := fb } uid req
                 (forkJoinOutcome subs))) := by
  constructor
  · intro hall
    rw [forkJoinOutcome_all_success hall]
    refine ⟨?_, ?_, ?_, ?_⟩
    · simp [executeObservableTrace, dispatchTrace, settleTrace,
        invokeSuccess, invokeSlot, List.mem_append, mem_ite_list]
    · intro ho
      simp [executeObservableTrace, dispatchTrace, settleTrace,
        invokeSuccess, invokeSlot, List.mem_append, mem_ite_list, ho]
    · intro m a
      simp [executeObservableTrace, dispatchTrace, settleTrace,
        invokeSuccess, invokeSlot, List.mem_append, mem_ite_list]
    · intro m a
      simp [executeObservableTrace, dispatchTrace, settleTrace,
        invokeSuccess, invokeSlot, List.mem_append, mem_ite_list]
  · intro k e hff
    have hmem := firstFailure_mem hff
    rw [forkJoinOutcome_first_failure hff]
    refine ⟨hmem, ?_, ?_, ?_, ?_⟩
    · simp [executeObservableTrace, dispatchTrace, settleTrace,
        List.mem_append, mem_ite_list]
    · intro tg d a
      simp [executeObservableTrace, dispatchTrace, settleTrace,
        List.mem_append, mem_ite_list]
    · intro d a
      simp [executeObservableTrace, dispatchTrace, settleTrace,
        List.mem_append, mem_ite_list]
    · intro tg d a
      simp [executeObservableTrace, dispatchTrace, settleTrace,
        List.mem_append, mem_ite_list]

/-- Witness for C1: two named sub-producers that both succeed, and two of
which one fails. -/
theorem c1_forkJoin_all_or_nothing_witness :
    Ev.hSuccess 3
        (successValues [("a", (Outcome.success 1 : Outcome Nat String)),
          ("b", Outcome.success 2)]) (0 : Nat)
      ∈ executeObservableTrace (fun m => m) {}
          { loading := false, success := some (SuccessSlot.cb 3),
            error := true, fin := false } "id0" 0
          (forkJoinOutcome [("a", (Outcome.success 1 : Outcome Nat String)),
            ("b", Outcome.success 2)])
    ∧ Ev.hError "boom" (0 : Nat)
      ∈ executeObservableTrace (fun m => m) {}
          { loading := false, success := some (SuccessSlot.cb 3),
            error := true, fin := false } "id0" 0
          (forkJoinOutcome [("a", (Outcome.success 1 : Outcome Nat String)),
            ("b", Outcome.failure "boom")]) :=
  ⟨((c1_forkJoin_all_or_nothing {} false false 3 "id0" (0 : Nat)
      [("a", (Outcome.success 1 : Outcome Nat String)),
        ("b", Outcome.success 2)]).1
      (by intro p hp; simp at hp; rcases hp with rfl | rfl
          exacts [⟨1, rfl⟩, ⟨2, rfl⟩])).1,
   ((c1_forkJoin_all_or_nothing {} false false 3 "id0" (0 : Nat)
      [("a", (Outcome.success 1 : Outcome Nat String)),
        ("b", Outcome.failure "boom")]).2
      "b" "boom" rfl).2.1⟩

/-- C2: with `debounceMs = 300` and `run` invocations entering the
`runSubject` at t=0, t=100 and t=150 with distinct arguments and nothing
afterwards, `debounceTime` delivers exactly one value — the t=150
arguments, at t=450 — so the producer is subscribed exactly once, with the
t=150 arguments and never with the t=0 or t=100 arguments, and only that
one dispatched invocation writes `loading` to the shared status signal
(the coalesced invocations produce no trace events at all). -/
theorem c2_debounce_coalesces {A R E : Type} (norm : E → String)
    (o : ActionOptions) (h : Handlers) (uidf : Nat × A → String)
    (outf : Nat × A → Outcome R E) (a0 a1 a2 : A)
    (h02 : a0 ≠ a2) (h12 : a1 ≠ a2) :
    debounceEmits 300 [(0, a0), (100, a1), (150, a2)] = [(450, a2)]
    ∧ debouncedRunTrace norm o h uidf outf 300 [(0, a0), (100, a1), (150, a2)]
        = executeObservableTrace norm o h (uidf (450, a2)) a2 (outf (450, a2))
    ∧ (debouncedRunTrace norm o h uidf outf 300
        [(0, a0), (100, a1), (150, a2)]).countP isSubscribe = 1
    ∧ Ev.subscribeProducer a2
        ∈ debouncedRunTrace norm o h uidf outf 300
            [(0, a0), (100, a1), (150, a2)]
    ∧ Ev.subscribeProducer a0
        ∉ debouncedRunTrace norm o h uidf outf 300
            [(0, a0), (100, a1), (150, a2)]
    ∧ Ev.subscribeProducer a1
        ∉ debouncedRunTrace norm o h uidf outf 300
            [(0, a0), (100, a1), (150, a2)]
    ∧ (debouncedRunTrace norm o h uidf outf 300
        [(0, a0), (100, a1), (150, a2)]).countP
          (isStatusSetTo AsyncStatus.loading) = 1 := by
  have hem : debounceEmits 300 [(0, a0), (100, a1), (150, a2)]
      = [(450, a2)] := by
    simp [debounceEmits]
  have htr : debouncedRunTrace norm o h uidf outf 300
      [(0, a0), (100, a1), (150, a2)]
      = executeObservableTrace norm o h (uidf (450, a2)) a2
          (outf (450, a2)) := by
    simp [debouncedRunTrace, hem]
  refine ⟨hem, htr, ?_, ?_, ?_, ?_, ?_⟩
  · rw [htr]
    exact countP_executeObservableTrace_subscribe norm o h (uidf (450, a2))
      a2 (outf (450, a2))
  · rw [htr]
    cases hc : outf (450, a2) <;>
      simp [executeObservableTrace, dispatchTrace, List.mem_append]
  · rw [htr]
    intro hm
    exact h02 (subscribeProducer_mem_trace hm)
  · rw [htr]
    intro hm
    exact h12 (subscribeProducer_mem_trace hm)
  · rw [htr]
    exact countP_executeObservableTrace_loading norm o h (uidf (450, a2))
      a2 (outf (450, a2))

/-- Witness for C2 at concrete distinct arguments 0, 1, 2. -/
theorem c2_debounce_coalesces_witness :
    ((0 : Nat) ≠ 2) ∧ ((1 : Nat) ≠ 2)
    ∧ debounceEmits 300 [(0, (0 : Nat)), (100, 1), (150, 2)] = [(450, 2)] :=
  ⟨by decide, by decide,
   (c2_debounce_coalesces (fun _ : Unit => "") {} {} (fun _ => "id")
      (fun _ => Outcome.success (0 : Nat)) 0 1 2 (by decide) (by decide)).1⟩

/-- C3: dispatching a second invocation while the first one's producer is
outstanding moves `currentSub` to the new subscription (the old one is
unsubscribed first), so when the first invocation's producer later
settles, nothing is delivered: no per-invocation `onSuccess` / `onError` /
`finally` event fires for it and the machine state — in particular the
shared status and error signals — is left exactly as the second dispatch
left it. -/
theorem c3_supersede_drops_callbacks {A R E : Type} (norm : E → String)
    (o : ActionOptions) (h1 h2 : Handlers) (uid1 uid2 : String)
    (args1 args2 : A) (outcome1 : Outcome R E) (st0 : MachineState) :
    settleDeliver norm o h1 uid1 args1 outcome1 st0.nextSub
        (dispatchImmediate o h2 uid2 args2
          (dispatchImmediate o h1 uid1 args1 st0))
      = ([], dispatchImmediate o h2 uid2 args2
          (dispatchImmediate o h1 uid1 args1 st0)) := by
  have hcur : (dispatchImmediate o h2 uid2 args2
      (dispatchImmediate o h1 uid1 args1 st0)).currentSub
      = some (st0.nextSub + 1) := by
    simp [dispatchImmediate]
  simp [settleDeliver, hcur]

lemma tracker_applyEvs_dispatchTrace {A R E : Type} (o : ActionOptions)
    (h : Handlers) (uid : String) (args : A) (st : MachineState) :
    (applyEvs st (dispatchTrace (A := A) (R := R) (E := E) o h uid
        args)).tracker
      = if tracked o then st.tracker.begin uid else st.tracker := by
  cases ht : tracked o <;> cases ho : o.onLoading <;> cases hh : h.loading <;>
    simp [dispatchTrace, applyEvs, applyEvM, ht, ho, hh]

lemma tracker_applyEvs_settleTrace {A R E : Type} (norm : E → String)
    (o : ActionOptions) (h : Handlers) (uid : String) (args : A)
    (outcome : Outcome R E) (st : MachineState) :
    (applyEvs st (settleTrace norm o h uid args outcome)).tracker
      = match outcome with
        | Outcome.success _ =>
            if tracked o then st.tracker.success uid else st.tracker
        | Outcome.failure e =>
            if tracked o then st.tracker.error uid (norm e)
            else st.tracker := by
  cases outcome with
  | success d =>
    simp only [settleTrace, applyEvs_append, applyEvs_ite,
      applyEvs_invokeSuccess]
    cases ht : tracked o <;> cases ho : o.onSuccess <;> cases hf : h.fin <;>
      simp [applyEvs, applyEvM, ht, ho, hf]
  | failure e =>
    simp only [settleTrace, applyEvs_append, applyEvs_ite]
    cases ht : tracked o <;> cases ho : o.onError <;> cases he : h.error <;>
      cases hf : h.fin <;> simp [applyEvs, applyEvM, ht, ho, he, hf]

lemma dispatchImmediate_tracker {A : Type} (o : ActionOptions)
    (h : Handlers) (uid : String) (args : A) (st : MachineState) :
    (dispatchImmediate o h uid args st).tracker
      = if tracked o then st.tracker.begin uid else st.tracker := by
  simp [dispatchImmediate, tracker_applyEvs_dispatchTrace]

lemma dispatchImmediate_currentSub {A : Type} (o : ActionOptions)
    (h : Handlers) (uid : String) (args : A) (st : MachineState) :
    (dispatchImmediate o h uid args st).currentSub = some st.nextSub := by
  simp [dispatchImmediate]

/-- C4 (amended): for a tracked invocation with a fresh identifier, the
identifier is registered with the tracker exactly once at dispatch and
deregistered exactly once when the producer settles (on both the success
and the error path), restoring the pending set — but an invocation
superseded before its producer settles never has its identifier removed:
the unsubscription path performs no tracker call, so the identifier stays
in the pending set permanently and `pendingCount` does not return to its
prior value. -/
theorem c4_tracker_id_lifecycle {A R E : Type} (norm : E → String)
    (o : ActionOptions) (h : Handlers) (uid : String) (args : A)
    (outcome : Outcome R E) (st0 : MachineState)
    (htr : tracked o = true) (hid : uid ∉ st0.tracker.pending) :
    (executeObservableTrace norm o h uid args outcome).countP
        (isTrackBeginOf uid) = 1
    ∧ (executeObservableTrace norm o h uid args outcome).countP
        (isTrackRemoveOf uid) = 1
    ∧ uid ∈ (dispatchImmediate o h uid args st0).tracker.pending
    ∧ (settleDeliver norm o h uid args outcome st0.nextSub
          (dispatchImmediate o h uid args st0)).2.tracker.pending
        = st0.tracker.pending
    ∧ (∀ (h2 : Handlers) (uid2 : String) (args2 : A)
          (outcome2 : Outcome R E), uid2 ≠ uid →
        uid ∈ (settleDeliver norm o h2 uid2 args2 outcome2 (st0.nextSub + 1)
            (dispatchImmediate o h2 uid2 args2
              (dispatchImmediate o h uid args st0))).2.tracker.pending) := by
  have hzb : ∀ (s : Option SuccessSlot) (d : R),
      (invokeSuccess (A := A) (E := E) s d args).countP
        (isTrackBeginOf uid) = 0 :=
    fun s d => countP_invokeSuccess_eq_zero (fun _ => rfl) (fun _ => rfl)
  have hzr : ∀ (s : Option SuccessSlot) (d : R),
      (invokeSuccess (A := A) (E := E) s d args).countP
        (isTrackRemoveOf uid) = 0 :=
    fun s d => countP_invokeSuccess_eq_zero (fun _ => rfl) (fun _ => rfl)
  refine ⟨?_, ?_, ?_, ?_, ?_⟩
  · cases outcome <;>
      simp [executeObservableTrace, dispatchTrace, settleTrace,
        List.countP_append, countP_ite_list, hzb, isTrackBeginOf,
        List.countP_cons, htr]
  · cases outcome <;>
      simp [executeObservableTrace, dispatchTrace, settleTrace,
        List.countP_append, countP_ite_list, hzr, isTrackRemoveOf,
        List.countP_cons, htr]
  · simp [dispatchImmediate_tracker, htr, TrackerState.begin]
  · have hcur := dispatchImmediate_currentSub o h uid args st0
    have htk := dispatchImmediate_tracker o h uid args st0
    cases outcome with
    | success d =>
      simp [settleDeliver, hcur, tracker_applyEvs_settleTrace, htk, htr,
        TrackerState.begin, TrackerState.success,
        Finset.erase_insert hid]
    | failure e =>
      simp [settleDeliver, hcur, tracker_applyEvs_settleTrace, htk, htr,
        TrackerState.begin, TrackerState.error,
        Finset.erase_insert hid]
  · intro h2 uid2 args2 outcome2 hne
    have hcur := dispatchImmediate_currentSub o h2 uid2 args2
      (dispatchImmediate o h uid args st0)
    have hnext : (dispatchImmediate o h uid args st0).nextSub
        = st0.nextSub + 1 := by
      simp [dispatchImmediate]
    rw [hnext] at hcur
    have htk1 := dispatchImmediate_tracker o h uid args st0
    have htk2 := dispatchImmediate_tracker o h2 uid2 args2
      (dispatchImmediate o h uid args st0)
    cases outcome2 with
    | success d =>
      simp [settleDeliver, hcur, tracker_applyEvs_settleTrace, htk2, htk1,
        htr, TrackerState.begin, TrackerState.success, Finset.mem_erase,
        hne.symm, Finset.mem_insert]
    | failure e =>
      simp [settleDeliver, hcur, tracker_applyEvs_settleTrace, htk2, htk1,
        htr, TrackerState.begin, TrackerState.error, Finset.mem_erase,
        hne.symm, Finset.mem_insert]

/-- C4 counterexample: the claim requires the identifier to be removed
even when the invocation is superseded before its producer settles, with
`pendingCount` returning to its prior value.  Concretely: from an empty
machine, a tracked invocation (id "a") is dispatched, then superseded by a
second tracked invocation (id "b"); the first invocation's settle is
dropped and the second settles successfully — yet `pendingCount` ends at 1
(id "a" is never removed), not at the prior value 0. -/
theorem c4_counterexample :
    (({} : MachineState).tracker.pendingCount = 0)
    ∧ ((settleDeliver (fun m => m) {} {} "b" (0 : Nat)
          (Outcome.success (0 : Nat)) 1
          (dispatchImmediate {} {} "b" (0 : Nat)
            (dispatchImmediate {} {} "a" (0 : Nat)
              ({} : MachineState)))).2.tracker.pendingCount = 1)
    ∧ "a" ∈ (settleDeliver (fun m => m) {} {} "b" (0 : Nat)
          (Outcome.success (0 : Nat)) 1
          (dispatchImmediate {} {} "b" (0 : Nat)
            (dispatchImmediate {} {} "a" (0 : Nat)
              ({} : MachineState)))).2.tracker.pending := by
  refine ⟨rfl, ?_, ?_⟩ <;> decide

/-- Witness for C4 at a concrete fresh identifier and empty machine. -/
theorem c4_tracker_id_lifecycle_witness :
    (tracked {} = true)
    ∧ ("a" ∉ ({} : MachineState).tracker.pending)
    ∧ "a" ∈ (dispatchImmediate {} {} "a" (0 : Nat)
        ({} : MachineState)).tracker.pending :=
  ⟨rfl, by decide,
   (c4_tracker_id_lifecycle (fun m : String => m) {} {} "a" (0 : Nat)
      (Outcome.success (0 : Nat)) ({} : MachineState) rfl
      (by decide)).2.2.1⟩
